import Mathlib

/-!
Verification development for the intranet-dashboard access-control core
(backend in TypeScript: `hardDeny`, the LDAP helper module `ad.ts`, the
authorization / session / CSRF middleware in `auth.ts`, the same-origin
check and middleware pipeline in the server entry point, and the checkout
route).  Each TypeScript function used by the claims is embedded as an
executable Lean definition operating on `String` / `List Char`, with
machine-level details (JS string methods, regexes, truthiness) spelled out
character by character.
-/

namespace DLT

/-! ## JS string helpers

`String.prototype.trim` removes leading and trailing whitespace.  We model
the ASCII subset of the JS whitespace set (space, tab, LF, CR, VT, FF),
which covers every string the configuration and HTTP layers feed into the
functions below. -/

def jsWs (c : Char) : Bool :=
  c = ' ' || c = Char.ofNat 9 || c = Char.ofNat 10 || c = Char.ofNat 13 ||
  c = Char.ofNat 11 || c = Char.ofNat 12

def trimL (l : List Char) : List Char :=
  ((l.dropWhile jsWs).reverse.dropWhile jsWs).reverse

def trimJs (s : String) : String :=
  String.mk (trimL s.data)

/-! ## `hardDeny` (lib/hardDeny.ts)

```
export const ACCESS_DENIED_BODY = 'Access Denied';
export function hardDeny(res, status: 401 | 403 = 403, negotiate = false) {
  res.status(status);
  res.setHeader('Content-Type', 'text/plain; charset=utf-8');
  res.setHeader('Cache-Control', 'no-store');
  res.setHeader('Pragma', 'no-cache');
  if (negotiate) res.setHeader('WWW-Authenticate', 'Negotiate');
  res.end(ACCESS_DENIED_BODY);
}
```
-/

structure HttpResponse where
  status : Nat
  contentType : String
  cacheControl : String
  pragma : String
  wwwAuthenticate : Option String
  body : String
  deriving DecidableEq, Repr

def ACCESS_DENIED_BODY : String := "Access Denied"

def hardDeny (status : Nat := 403) (negotiate : Bool := false) : HttpResponse :=
  { status := status
    contentType := "text/plain; charset=utf-8"
    cacheControl := "no-store"
    pragma := "no-cache"
    wwwAuthenticate := if negotiate then some "Negotiate" else none
    body := ACCESS_DENIED_BODY }

/-! ## `escapeLdapFilter` (ad.ts)

```
function escapeLdapFilter(v: string): string {
  return v
    .replace(/\\/g, '\\5c')
    .replace(/\*/g, '\\2a')
    .replace(/\(/g, '\\28')
    .replace(/\)/g, '\\29')
    .replace(/\0/g, '\\00');
}
```

A global single-character `replace` is exactly `List.flatMap` of the
per-character substitution. -/

def replaceChar (t : Char) (r : List Char) (l : List Char) : List Char :=
  l.flatMap (fun c => if c = t then r else [c])

def escapeLdapFilterL (l : List Char) : List Char :=
  replaceChar (Char.ofNat 0) ['\\', '0', '0']
    (replaceChar ')' ['\\', '2', '9']
      (replaceChar '(' ['\\', '2', '8']
        (replaceChar '*' ['\\', '2', 'a']
          (replaceChar '\\' ['\\', '5', 'c'] l))))

def escapeLdapFilter (s : String) : String :=
  String.mk (escapeLdapFilterL s.data)

/-- The per-character code that the five sequential replaces implement. -/
def escChar (c : Char) : List Char :=
  if c = '\\' then ['\\', '5', 'c']
  else if c = '*' then ['\\', '2', 'a']
  else if c = '(' then ['\\', '2', '8']
  else if c = ')' then ['\\', '2', '9']
  else if c = Char.ofNat 0 then ['\\', '0', '0']
  else [c]

/-- The two-hex-digit pairs that may legally follow a backslash in an
escaped fragment. -/
def isEscPair (a b : Char) : Bool :=
  decide ((a = '5' ∧ b = 'c') ∨ (a = '2' ∧ b = 'a') ∨ (a = '2' ∧ b = '8') ∨
    (a = '2' ∧ b = '9') ∨ (a = '0' ∧ b = '0'))

/-- The four characters that must never appear raw in an escaped filter
fragment (a raw backslash is handled separately: every backslash in the
output must begin an escape codeword). -/
def filterSpecial (c : Char) : Bool :=
  c = '*' || c = '(' || c = ')' || c = Char.ofNat 0

/-! ## `parseAllowedGroup` and the SID detection in `resolveAllowedGroupDN` (ad.ts)

```
function parseAllowedGroup(allowedAdGroup: string) {
  const v = allowedAdGroup.trim();
  if (/^S-1-\d+(-\d+)+$/i.test(v)) return { domain: null, groupNameOrSid: v };
  const m = /^([^\\]+)\\(.+)$/.exec(v);
  if (!m) return { domain: null, groupNameOrSid: v };
  return { domain: m[1] || null, groupNameOrSid: m[2] };
}
...
  const isSid = (regex test: the literal four-character prefix S-1-).test(groupNameOrSid);
```
-/

def splitOnDash : List Char → List (List Char)
  | [] => [[]]
  | c :: r =>
    let rs := splitOnDash r
    if c = '-' then [] :: rs
    else
      match rs with
      | g :: gs => (c :: g) :: gs
      | [] => [[c]]

/-- `\d+(-\d+)+` : at least two dash-separated groups, each a non-empty
run of decimal digits. -/
def sidTailOk (rest : List Char) : Bool :=
  let gs := splitOnDash rest
  decide (2 ≤ gs.length) && gs.all (fun g => (!g.isEmpty) && g.all Char.isDigit)

/-- The strict pattern `/^S-1-\d+(-\d+)+$/i` (only the letter `S` is
case-folded by the `i` flag). -/
def strictSidL (v : List Char) : Bool :=
  match v with
  | c1 :: c2 :: c3 :: c4 :: rest =>
    (c1 == 'S' || c1 == 's') && c2 == '-' && c3 == '1' && c4 == '-' && sidTailOk rest
  | _ => false

def strictSid (s : String) : Bool := strictSidL s.data

/-- Split at the first backslash, as `/^([^\\]+)\\(.+)$/` does: the first
group cannot contain a backslash, so the separator is forced to be the
first backslash of the string. -/
def splitFirstBackslash : List Char → Option (List Char × List Char)
  | [] => none
  | c :: r =>
    if c = '\\' then some ([], r)
    else
      match splitFirstBackslash r with
      | none => none
      | some (d, rest) => some (c :: d, rest)

/-- A character matched by an unflagged JS `.` (anything except the four
line terminators). -/
def jsDotChar (c : Char) : Bool :=
  !(c == Char.ofNat 10 || c == Char.ofNat 13 ||
    c == Char.ofNat 0x2028 || c == Char.ofNat 0x2029)

/-- The full match of `/^([^\\]+)\\(.+)$/`: a non-empty prefix without
backslashes, one backslash, and a non-empty remainder of `.`-matchable
characters reaching the end of the string. -/
def domainSplit (v : List Char) : Option (List Char × List Char) :=
  match splitFirstBackslash v with
  | none => none
  | some (d, rest) =>
    if d ≠ [] ∧ rest ≠ [] ∧ rest.all jsDotChar then some (d, rest) else none

def parseAllowedGroupL (l : List Char) : Option (List Char) × List Char :=
  let v := trimL l
  if strictSidL v then (none, v)
  else
    match domainSplit v with
    | none => (none, v)
    | some (d, rest) => (some d, rest)

def parseAllowedGroup (s : String) :
    Option String × String :=
  let r := parseAllowedGroupL s.data
  (r.1.map String.mk, String.mk r.2)

/-- The branch selector in `resolveAllowedGroupDN`: a regex test of the
literal four-character prefix `S-1-` on `groupNameOrSid` — a
case-sensitive prefix test, not the strict pattern. -/
def sidPrefixTest (l : List Char) : Bool :=
  ['S', '-', '1', '-'].isPrefixOf l

inductive GroupFilterKind where
  | sid : GroupFilterKind
  | name : GroupFilterKind
  deriving DecidableEq, Repr

/-- Which directory filter `resolveAllowedGroupDN` builds for a given
configured group spec: the SID-to-binary path when `isSid` is true, the
account-name/common-name filter otherwise. -/
def groupQueryKind (spec : String) : GroupFilterKind :=
  if sidPrefixTest (parseAllowedGroupL spec.data).2 then .sid else .name

/-- The name-path filter string of `resolveAllowedGroupDN` (ad.ts line
built from `filterForName`). -/
def filterForName (groupNameOrSid : String) : String :=
  "(&(objectClass=group)(|(sAMAccountName=" ++ escapeLdapFilter groupNameOrSid ++
    ")(cn=" ++ escapeLdapFilter groupNameOrSid ++ ")))"

/-- The final check of `resolveAllowedGroupDN`:
`if (!r.groupDN) throw new Error('Allowed AD group DN missing');
return { groupDN: r.groupDN, groupDomainLabel: domain };`
(a missing JSON field is modelled as the falsy empty string). -/
def finishResolveGroupDN (rawGroupDN : String) (domain : Option String) :
    Except String (String × Option String) :=
  if rawGroupDN = "" then Except.error "Allowed AD group DN missing"
  else Except.ok (rawGroupDN, domain)

/-! ## `stripDomainPrefix` and `normalizeUserLabel` (ad.ts)

```
function stripDomainPrefix(v: string): string {
  const m = /^([^\\]+)\\(.+)$/.exec(v.trim());
  return m ? m[2] : v.trim();
}
function normalizeUserLabel(domainLabel, sam, upn) {
  if (domainLabel && sam) return `${domainLabel}\\${sam}`;
  if (upn) return upn;
  if (sam) return sam;
  return '';
}
```
-/

def stripDomainPrefixL (v : List Char) : List Char :=
  let t := trimL v
  match domainSplit t with
  | some (_, rest) => rest
  | none => t

def stripDomainPrefixS (s : String) : String :=
  String.mk (stripDomainPrefixL s.data)

/-- `domainLabel` is `string | null` in the source; JS truthiness makes
both `null` and the empty string fall through to the next branch. -/
def normalizeUserLabel (domainLabel : Option String) (sam upn : String) : String :=
  if domainLabel.getD "" ≠ "" ∧ sam ≠ "" then domainLabel.getD "" ++ "\\" ++ sam
  else if upn ≠ "" then upn
  else if sam ≠ "" then sam
  else ""

/-! ## Directory model

The PowerShell helper scripts run `DirectorySearcher` queries against the
directory.  We model the directory as the list of its entries; a query
with `SizeLimit=n` returns the matching entries truncated to at most `n`
(the documented `DirectorySearcher` behaviour, and the behaviour the
source itself relies on: `resolveAllowedGroupDN` and
`resolveAndValidateCheckoutUser` set `SizeLimit=2` and test
`Count -ne 1` to detect ambiguity, which only works if an over-limit
result set is truncated rather than an error).  A directory failure
(unreachable DC, not domain-joined, helper error) is the `Except.error`
case of the oracle argument. -/

structure DirEntry where
  isPersonCategory : Bool
  isUserClass : Bool
  sam : String
  upn : String
  displayName : String
  transitiveGroups : List String
  deriving DecidableEq, Repr

/-- The filter of `isUserInGroup`:
`(&(objectCategory=person)(objectClass=user)(sAMAccountName=…)(memberOf:1.2.840.113556.1.4.1941:=…))`,
read semantically: person, user, exact account-name match, transitive
(nested) membership of the group DN. -/
def memberFilterMatches (samWanted groupDN : String) (e : DirEntry) : Bool :=
  e.isPersonCategory && e.isUserClass && e.sam == samWanted &&
    e.transitiveGroups.contains groupDN

/-- `isUserInGroup` (ad.ts): strips the domain prefix, returns false on an
empty account name without querying, then runs the search with
`SizeLimit=1` and answers `res.Count -eq 1`.  The `userDomain` argument is
accepted but never used in the filter, exactly as in the source. -/
def isUserInGroup (dir : Except String (List DirEntry))
    (_userDomain : Option String) (userName groupDN : String) :
    Except String Bool :=
  let sam := stripDomainPrefixS userName
  if sam = "" then Except.ok false
  else
    match dir with
    | Except.error e => Except.error e
    | Except.ok entries =>
      Except.ok (((entries.filter (memberFilterMatches sam groupDN)).take 1).length == 1)

/-! ## `requireCsrf` (auth.ts)

```
export function requireCsrf(req, res, next) {
  const method = req.method.toUpperCase();
  if (method === 'GET' || method === 'HEAD' || method === 'OPTIONS') return next();
  const header = req.header('x-csrf-token') || '';
  const cookie = (req as any).cookies?.['XSRF-TOKEN'] || '';
  const expected = req.session.csrf || '';
  if (!header || !cookie || !expected || header !== cookie || header !== expected) {
    return hardDeny(res, 403);
  }
  next();
}
```
-/

inductive MwStep where
  | next : MwStep
  | halt : HttpResponse → MwStep
  deriving DecidableEq, Repr

def jsToUpper (s : String) : String := String.mk (s.data.map Char.toUpper)

def requireCsrf (method : String) (header cookie sessionCsrf : Option String) : MwStep :=
  if jsToUpper method = "GET" ∨ jsToUpper method = "HEAD" ∨
      jsToUpper method = "OPTIONS" then MwStep.next
  else if header.getD "" = "" ∨ cookie.getD "" = "" ∨ sessionCsrf.getD "" = "" ∨
      header.getD "" ≠ cookie.getD "" ∨ header.getD "" ≠ sessionCsrf.getD "" then
    MwStep.halt (hardDeny 403 false)
  else MwStep.next

/-! ## `getAllowedGroup` (auth.ts)

```
let allowedGroupPromise: Promise<...> | null = null;
const getAllowedGroup = () => {
  if (!allowedGroupPromise) {
    allowedGroupPromise = resolveAllowedGroupDN(config.allowedAdGroup);
  }
  return allowedGroupPromise;
};
```

The cached value is the promise object itself, which is truthy whether it
later fulfils or rejects; it is never reset.  We model the cache as the
settled outcome of that promise (`none` before the first call), a call as
one step consuming the outcome a fresh resolution would produce, and
report whether the step issued a new underlying directory resolution. -/

abbrev GroupOutcome := Except String (String × Option String)

def getAllowedGroupStep (cache : Option GroupOutcome) (fresh : GroupOutcome) :
    GroupOutcome × Option GroupOutcome × Bool :=
  match cache with
  | none => (fresh, some fresh, true)
  | some r => (r, some r, false)

/-! ## The gate's denial sites (auth.ts / hardDeny.ts)

Every denial branch of the authorization gate and the CSRF middleware,
with the exact `hardDeny` arguments used at that call site. -/

inductive DenialCause where
  | missingCredential : DenialCause
  | handshakeError : DenialCause
  | noIdentity : DenialCause
  | notMember : DenialCause
  | directoryFailure : DenialCause
  | csrfMismatch : DenialCause
  deriving DecidableEq, Repr

def denialResponse : DenialCause → HttpResponse
  | DenialCause.missingCredential => hardDeny 401 true
  | DenialCause.handshakeError => hardDeny 401 true
  | DenialCause.noIdentity => hardDeny 401 true
  | DenialCause.notMember => hardDeny 403 false
  | DenialCause.directoryFailure => hardDeny 403 false
  | DenialCause.csrfMismatch => hardDeny 403 false

/-! ## The membership stage of `buildAuthzMiddleware` (auth.ts)

```
try {
  const allowed = await getAllowedGroup();
  const ok = await isUserInGroup(id.domain, id.name, allowed.groupDN);
  if (!ok) { auditLog(...); return hardDeny(res, 403); }
  req.session.auth = { user: id.user }; ...
} catch { auditLog(...); return hardDeny(res, 403); }
```
-/

inductive GateOutcome where
  | denied : HttpResponse → GateOutcome
  | established : String → String → Option String → GateOutcome
  deriving DecidableEq, Repr

def authzMembership (allowedRes : GroupOutcome)
    (dir : Except String (List DirEntry)) (idDomain : Option String)
    (idName userLabel : String) : GateOutcome :=
  match allowedRes with
  | Except.error _ => GateOutcome.denied (hardDeny 403 false)
  | Except.ok allowed =>
    match isUserInGroup dir idDomain idName allowed.1 with
    | Except.error _ => GateOutcome.denied (hardDeny 403 false)
    | Except.ok false => GateOutcome.denied (hardDeny 403 false)
    | Except.ok true => GateOutcome.established userLabel allowed.1 allowed.2

/-! ## `resolveAndValidateCheckoutUser` (ad.ts) and the checkout route (api.ts)

The validation stages before any directory call:

```
const v = input.trim();
if (!v) return { normalized: '' };
if (v.length > 256) return null;
if (!/^[A-Za-z0-9@._\\-]+$/.test(v)) return null;
const rawUser = stripDomainPrefix(v);
```

Note the character class is `[A-Za-z0-9@._\\-]`: inside a JS regex
literal `\\` is one escaped backslash, so a literal backslash is a
permitted character (needed so `DOMAIN\user` inputs reach the
prefix-stripping step). -/

def checkoutCharOk (c : Char) : Bool :=
  decide (('A' ≤ c ∧ c ≤ 'Z') ∨ ('a' ≤ c ∧ c ≤ 'z') ∨ ('0' ≤ c ∧ c ≤ '9') ∨
    c = '@' ∨ c = '.' ∨ c = '_' ∨ c = '\\' ∨ c = '-')

inductive CheckoutValidation where
  | clearCheckout : CheckoutValidation
  | rejected : CheckoutValidation
  | queryDirectory : List Char → CheckoutValidation
  deriving DecidableEq, Repr

def checkoutPrevalidate (input : List Char) : CheckoutValidation :=
  let v := trimL input
  if v = [] then CheckoutValidation.clearCheckout
  else if 256 < v.length then CheckoutValidation.rejected
  else if !(v.all checkoutCharOk) then CheckoutValidation.rejected
  else CheckoutValidation.queryDirectory (stripDomainPrefixL v)

/-- The filter of the checkout query: person, user, account-name *or*
principal-name match, transitive membership of the group DN. -/
def checkoutDirMatches (rawUser groupDN : String) (e : DirEntry) : Bool :=
  e.isPersonCategory && e.isUserClass && (e.sam == rawUser || e.upn == rawUser) &&
    e.transitiveGroups.contains groupDN

/-- Full `resolveAndValidateCheckoutUser`, also counting the directory
queries it issues (`SizeLimit=2`, `Count -ne 1` rejects ambiguity).
`Except.ok none` is the JS `null` return; the error case is a rejected
helper invocation propagating to the caller. -/
def resolveAndValidateCheckoutUser (dir : Except String (List DirEntry))
    (input groupDN : String) (domainLabel : Option String) :
    Except String (Option String) × Nat :=
  match checkoutPrevalidate input.data with
  | CheckoutValidation.clearCheckout => (Except.ok (some ""), 0)
  | CheckoutValidation.rejected => (Except.ok none, 0)
  | CheckoutValidation.queryDirectory rawUser =>
    match dir with
    | Except.error e => (Except.error e, 1)
    | Except.ok entries =>
      let res := (entries.filter (checkoutDirMatches (String.mk rawUser) groupDN)).take 2
      match res with
      | [e] =>
        let normalized := normalizeUserLabel domainLabel (trimJs e.sam) (trimJs e.upn)
        if normalized = "" then (Except.ok none, 1) else (Except.ok (some normalized), 1)
      | _ => (Except.ok none, 1)

/-- The fixed 400 of the checkout route:
`res.status(400).type('text/plain').send('Invalid checkout user')`
(express `send` appends the charset; unset headers are modelled empty). -/
def invalidCheckoutResp : HttpResponse :=
  { status := 400
    contentType := "text/plain; charset=utf-8"
    cacheControl := ""
    pragma := ""
    wwwAuthenticate := none
    body := "Invalid checkout user" }

inductive RouteResult where
  | http : HttpResponse → RouteResult
  | checkoutWritten : String → RouteResult
  deriving DecidableEq, Repr

/-- The fallback error handler in the server entry point:
`res.status(500).type('text/plain').send('Internal Server Error')`. -/
def internalErrorResp : HttpResponse :=
  { status := 500
    contentType := "text/plain; charset=utf-8"
    cacheControl := ""
    pragma := ""
    wwwAuthenticate := none
    body := "Internal Server Error" }

/-- `POST /api/checkout` (api.ts): zod body check (`checkoutUser` at most
256 characters, `computerName` shape), target-computer existence check,
then `resolveAndValidateCheckoutUser`; a rejected helper promise falls
through to the 500 error handler.  Returns the response together with the
number of directory queries issued. -/
def checkoutRoute (dir : Except String (List DirEntry)) (computerNameOk computerKnown : Bool)
    (checkoutUser groupDN : String) (domainLabel : Option String) :
    RouteResult × Nat :=
  if !(computerNameOk && decide (checkoutUser.length ≤ 256)) then
    (RouteResult.http invalidCheckoutResp, 0)
  else if !computerKnown then (RouteResult.http invalidCheckoutResp, 0)
  else
    match resolveAndValidateCheckoutUser dir checkoutUser groupDN domainLabel with
    | (Except.ok none, n) => (RouteResult.http invalidCheckoutResp, n)
    | (Except.ok (some norm), n) => (RouteResult.checkoutWritten norm, n)
    | (Except.error _, n) => (RouteResult.http internalErrorResp, n)

/-! ## The same-origin check and its place in the pipeline (server entry point)

```
app.use((req, res, next) => {
  const origin = req.headers.origin;
  if (!origin) return next();
  try {
    const o = new URL(origin);
    const host = req.get('host');
    if (!host || o.host !== host) return hardDeny(res, 403);
  } catch { return hardDeny(res, 403); }
  next();
});
app.use(buildAuthzMiddleware(config));
```

`new URL(origin).host` is the WHATWG URL parser of the platform, an
external collaborator; it is passed in as the `parse` oracle (`none`
models a parse exception).  `if (!origin) return next()` is a JS
falsiness test: it passes both an absent Origin header (`undefined`) and
a present-but-empty one (`''`), so the guard is `origin.getD "" = ""`,
not a match on `none` alone. -/

def originCheck (parse : String → Option String) (origin host : Option String) : MwStep :=
  if origin.getD "" = "" then MwStep.next
  else
    match parse (origin.getD "") with
    | none => MwStep.halt (hardDeny 403 false)
    | some oh =>
      if host.getD "" = "" ∨ oh ≠ host.getD "" then MwStep.halt (hardDeny 403 false)
      else MwStep.next

/-- The origin middleware runs strictly before the authorization gate in
the `app.use` chain; `rest` is whatever the gate and everything after it
would produce for this request. -/
def pipelineFromOrigin (parse : String → Option String) (origin host : Option String)
    (rest : HttpResponse) : HttpResponse :=
  match originCheck parse origin host with
  | MwStep.halt r => r
  | MwStep.next => rest

/-! ## Session establishment and the session invariant (auth.ts)

The only statements in the repository that write the session fields are
the success path of the gate (four consecutive synchronous assignments,
no `await` between them — one atomic step with respect to other
requests), `req.session.destroy` in the logout route, and session
creation/expiry, which yield a fresh empty session.

```
req.session.auth = { user: id.user };
req.session.allowedGroupDN = allowed.groupDN;
req.session.allowedGroupDomain = allowed.groupDomainLabel;
req.session.csrf = randomToken();
```

`randomToken` is `crypto.randomBytes(32).toString('base64url')`; we embed
the base64url encoder and let the 32 random bytes be arbitrary. -/

def b64urlAlphabet (n : Nat) : Char :=
  if n < 26 then Char.ofNat ('A'.toNat + n)
  else if n < 52 then Char.ofNat ('a'.toNat + (n - 26))
  else if n < 62 then Char.ofNat ('0'.toNat + (n - 52))
  else if n = 62 then '-'
  else '_'

def b64urlEncode : List Nat → List Char
  | [] => []
  | [a] => [b64urlAlphabet (a / 4), b64urlAlphabet (a % 4 * 16)]
  | [a, b] =>
    [b64urlAlphabet (a / 4), b64urlAlphabet (a % 4 * 16 + b / 16),
     b64urlAlphabet (b % 16 * 4)]
  | a :: b :: c :: rest =>
    b64urlAlphabet (a / 4) :: b64urlAlphabet (a % 4 * 16 + b / 16) ::
      b64urlAlphabet (b % 16 * 4 + c / 64) :: b64urlAlphabet (c % 64) ::
      b64urlEncode rest

def randomToken (bytes : List Nat) : String := String.mk (b64urlEncode bytes)

structure Session where
  auth : Option String
  csrf : Option String
  allowedGroupDN : Option String
  allowedGroupDomain : Option (Option String)
  deriving DecidableEq, Repr

def emptySession : Session :=
  { auth := none, csrf := none, allowedGroupDN := none, allowedGroupDomain := none }

def establishSession (s : Session) (user dn : String) (dom : Option String)
    (tok : String) : Session :=
  { s with
    auth := some user
    csrf := some tok
    allowedGroupDN := some dn
    allowedGroupDomain := some dom }

/-- The session states the program can produce: a fresh session, the
gate's success path (whose group DN passed the non-empty check inside
`resolveAllowedGroupDN` and whose token is the base64url encoding of the
32 bytes from `crypto.randomBytes(32)`), and destruction on
logout/expiry. -/
inductive SessionReachable : Session → Prop
  | init : SessionReachable emptySession
  | establish (s : Session) (hs : SessionReachable s) (user rawDN dn : String)
      (dom : Option String)
      (hdn : finishResolveGroupDN rawDN dom = Except.ok (dn, dom))
      (bytes : List Nat) (hb : bytes.length = 32) :
      SessionReachable (establishSession s user dn dom (randomToken bytes))
  | destroy (s : Session) (hs : SessionReachable s) : SessionReachable emptySession


/-! ## Lemmas about the filter-escaping code -/

lemma replaceChar_append (t : Char) (r : List Char) (a b : List Char) :
    replaceChar t r (a ++ b) = replaceChar t r a ++ replaceChar t r b := by
  simp [replaceChar]

lemma escapeLdapFilterL_cons (c : Char) (l : List Char) :
    escapeLdapFilterL (c :: l) = escChar c ++ escapeLdapFilterL l := by
  have h : (c :: l) = [c] ++ l := rfl
  rw [h]
  simp only [escapeLdapFilterL, replaceChar_append]
  congr 1
  by_cases h1 : c = '\\'
  · subst h1; rfl
  · by_cases h2 : c = '*'
    · subst h2; rfl
    · by_cases h3 : c = '('
      · subst h3; rfl
      · by_cases h4 : c = ')'
        · subst h4; rfl
        · by_cases h5 : c = Char.ofNat 0
          · subst h5; rfl
          · simp [replaceChar, escChar, h1, h2, h3, h4, h5]

lemma escapeLdapFilterL_eq_flatMap (l : List Char) :
    escapeLdapFilterL l = l.flatMap escChar := by
  induction l with
  | nil => rfl
  | cons c r ih => rw [escapeLdapFilterL_cons, ih, List.flatMap_cons]

lemma escChar_ne_nil (c : Char) : escChar c ≠ [] := by
  unfold escChar
  split_ifs <;> simp

/-- Cancellation: the per-character code is a uniquely decodable prefix
code (all multi-character codewords start with a backslash, which no
single-character codeword is). -/
lemma escChar_cancel (a b : Char) (x y : List Char)
    (h : escChar a ++ x = escChar b ++ y) : a = b ∧ x = y := by
  unfold escChar at h
  split_ifs at h <;> (try simp_all) <;> exact absurd h.1.symm (by assumption)

lemma escapeLdapFilterL_inj (s t : List Char)
    (h : escapeLdapFilterL s = escapeLdapFilterL t) : s = t := by
  rw [escapeLdapFilterL_eq_flatMap, escapeLdapFilterL_eq_flatMap] at h
  induction s generalizing t with
  | nil =>
    cases t with
    | nil => rfl
    | cons b t' =>
      exfalso
      rw [List.flatMap_nil, List.flatMap_cons] at h
      exact escChar_ne_nil b (by
        cases hb : escChar b with
        | nil => rfl
        | cons c cs => rw [hb] at h; simp at h)
  | cons a s' ih =>
    cases t with
    | nil =>
      exfalso
      rw [List.flatMap_cons, List.flatMap_nil] at h
      exact escChar_ne_nil a (by
        cases ha : escChar a with
        | nil => rfl
        | cons c cs => rw [ha] at h; simp at h)
    | cons b t' =>
      rw [List.flatMap_cons, List.flatMap_cons] at h
      obtain ⟨hab, hrest⟩ := escChar_cancel a b _ _ h
      exact hab ▸ congrArg (a :: ·) (ih t' hrest)

lemma escChar_plain (c : Char) (h1 : ¬c = '\\') (h2 : ¬c = '*') (h3 : ¬c = '(')
    (h4 : ¬c = ')') (h5 : ¬c = Char.ofNat 0) : escChar c = [c] := by
  simp [escChar, h1, h2, h3, h4, h5]

lemma escChar_special (c : Char)
    (h : c = '\\' ∨ c = '*' ∨ c = '(' ∨ c = ')' ∨ c = Char.ofNat 0) :
    ∃ x y, escChar c = ['\\', x, y] ∧ isEscPair x y = true ∧ x ≠ '\\' ∧ y ≠ '\\' := by
  rcases h with rfl | rfl | rfl | rfl | rfl <;>
    exact ⟨_, _, rfl, by decide, by decide, by decide⟩

/-- The characters `* ( )` NUL never occur in the escaped output at all. -/
lemma escape_no_raw_special (l : List Char) (x : Char)
    (hx : x ∈ escapeLdapFilterL l) : filterSpecial x = false := by
  rw [escapeLdapFilterL_eq_flatMap] at hx
  obtain ⟨c, _, hcx⟩ := List.mem_flatMap.mp hx
  by_cases hs : c = '\\' ∨ c = '*' ∨ c = '(' ∨ c = ')' ∨ c = Char.ofNat 0
  · obtain ⟨a, b, hesc, hpair, _, _⟩ := escChar_special c hs
    rw [hesc] at hcx
    simp only [List.mem_cons, List.mem_singleton, List.not_mem_nil] at hcx
    rcases hcx with rfl | rfl | rfl | hf
    · decide
    · revert hpair
      simp only [isEscPair, decide_eq_true_eq]
      rintro (⟨rfl, _⟩ | ⟨rfl, _⟩ | ⟨rfl, _⟩ | ⟨rfl, _⟩ | ⟨rfl, _⟩) <;> decide
    · revert hpair
      simp only [isEscPair, decide_eq_true_eq]
      rintro (⟨_, rfl⟩ | ⟨_, rfl⟩ | ⟨_, rfl⟩ | ⟨_, rfl⟩ | ⟨_, rfl⟩) <;> decide
    · exact absurd hf (by simp)
  · push_neg at hs
    obtain ⟨h1, h2, h3, h4, h5⟩ := hs
    rw [escChar_plain c h1 h2 h3 h4 h5] at hcx
    simp only [List.mem_singleton] at hcx
    subst hcx
    simp [filterSpecial, h2, h3, h4, h5]

/-- Every backslash in the escaped output begins one of the five escape
codewords: no backslash is left unescaped. -/
lemma escape_backslash_escaped (l : List Char) :
    ∀ p q : List Char, escapeLdapFilterL l = p ++ '\\' :: q →
      ∃ a b r, q = a :: b :: r ∧ isEscPair a b = true := by
  rw [escapeLdapFilterL_eq_flatMap]
  induction l with
  | nil =>
    intro p q h
    rw [List.flatMap_nil] at h
    exact absurd h (by simp)
  | cons c l' ih =>
    intro p q h
    rw [List.flatMap_cons] at h
    by_cases hs : c = '\\' ∨ c = '*' ∨ c = '(' ∨ c = ')' ∨ c = Char.ofNat 0
    · obtain ⟨x, y, hesc, hpair, hx, hy⟩ := escChar_special c hs
      rw [hesc] at h
      match p, h with
      | [], h =>
        injection h with _ h2
        exact ⟨x, y, l'.flatMap escChar, h2.symm, hpair⟩
      | [p1], h =>
        injection h with _ h2
        injection h2 with h3 _
        exact absurd h3 hx
      | [p1, p2], h =>
        injection h with _ h2
        injection h2 with _ h3
        injection h3 with h4 _
        exact absurd h4 hy
      | p1 :: p2 :: p3 :: p', h =>
        injection h with _ h2
        injection h2 with _ h3
        injection h3 with _ h4
        exact ih p' q h4
    · push_neg at hs
      obtain ⟨h1, h2, h3, h4, h5⟩ := hs
      rw [escChar_plain c h1 h2 h3 h4 h5] at h
      match p, h with
      | [], h =>
        injection h with hc _
        exact absurd hc h1
      | p1 :: p', h =>
        injection h with _ hrest
        exact ih p' q hrest

/-- A nonempty byte sequence encodes to a nonempty base64url string. -/
lemma b64urlEncode_ne_nil (l : List Nat) (h : l ≠ []) : b64urlEncode l ≠ [] := by
  match l with
  | [] => exact absurd rfl h
  | [a] => simp [b64urlEncode]
  | [a, b] => simp [b64urlEncode]
  | a :: b :: c :: rest => simp [b64urlEncode]

/-! ## Claim theorems -/

/-- C1, counterexample: the missing-credential denial carries
`Content-Type: text/plain; charset=utf-8`, which is not the exact header
value `text/plain` the claim states. -/
theorem claim1_contentType_counterexample :
    (denialResponse DenialCause.missingCredential).contentType =
      "text/plain; charset=utf-8" ∧
    ("text/plain; charset=utf-8" : String) ≠ "text/plain" := by
  constructor
  · rfl
  · decide

/-- C1, amended: every denial produced by the gate (missing credential,
handshake failure, no extractable identity, not-a-member, directory
failure, CSRF mismatch) has status 401 or 403, header `Content-Type`
exactly `text/plain; charset=utf-8`, header `Cache-Control` exactly
`no-store`, the `WWW-Authenticate: Negotiate` handshake-retry header
exactly on the 401 denials, and body exactly the literal `Access Denied`,
identical in all denial cases. -/
theorem claim1_denial_contract (c : DenialCause) :
    ((denialResponse c).status = 401 ∨ (denialResponse c).status = 403) ∧
    (denialResponse c).contentType = "text/plain; charset=utf-8" ∧
    (denialResponse c).cacheControl = "no-store" ∧
    ((denialResponse c).wwwAuthenticate = some "Negotiate" ↔
      (denialResponse c).status = 401) ∧
    (denialResponse c).body = "Access Denied" := by
  cases c <;> exact ⟨by decide, rfl, rfl, by decide, rfl⟩

/-- C1 witness: the amended denial contract evaluated at the
not-a-member denial. -/
theorem claim1_denial_contract_witness :
    ((denialResponse DenialCause.notMember).status = 401 ∨
      (denialResponse DenialCause.notMember).status = 403) ∧
    (denialResponse DenialCause.notMember).contentType =
      "text/plain; charset=utf-8" ∧
    (denialResponse DenialCause.notMember).cacheControl = "no-store" ∧
    ((denialResponse DenialCause.notMember).wwwAuthenticate = some "Negotiate" ↔
      (denialResponse DenialCause.notMember).status = 401) ∧
    (denialResponse DenialCause.notMember).body = "Access Denied" :=
  claim1_denial_contract DenialCause.notMember

/-- C2, counterexample: after a failed first resolution, the next call to
`getAllowedGroup` does *not* issue a new underlying directory resolution —
the cached (rejected) promise is returned and the issued-new-call flag of
the second step is false, even though a fresh resolution would have
succeeded. -/
theorem claim2_failure_cached_counterexample :
    (getAllowedGroupStep
        (getAllowedGroupStep none (Except.error "AD query failed")).2.1
        (Except.ok ("CN=IT-Staff,OU=Groups,DC=corp,DC=local", some "CORP"))).2.2
      = false ∧
    (getAllowedGroupStep
        (getAllowedGroupStep none (Except.error "AD query failed")).2.1
        (Except.ok ("CN=IT-Staff,OU=Groups,DC=corp,DC=local", some "CORP"))).1
      = Except.error "AD query failed" := by
  exact ⟨rfl, rfl⟩

/-- C2, amended: the first call to the gate's allowed-group resolution
issues the one underlying directory resolution and memoizes its outcome —
success *or* failure — for the process lifetime; every later call returns
the memoized outcome and issues no new directory resolution. -/
theorem claim2_promise_memoized (o1 o2 : GroupOutcome) :
    getAllowedGroupStep none o1 = (o1, some o1, true) ∧
    getAllowedGroupStep (some o1) o2 = (o1, some o1, false) := by
  exact ⟨rfl, rfl⟩

/-- C2 witness: the memoization law evaluated at a concrete failed first
outcome and a concrete fresh success. -/
theorem claim2_promise_memoized_witness :
    getAllowedGroupStep none (Except.error "AD query failed") =
      (Except.error "AD query failed", some (Except.error "AD query failed"), true) ∧
    getAllowedGroupStep (some (Except.error "AD query failed"))
        (Except.ok ("CN=G", some "CORP")) =
      (Except.error "AD query failed", some (Except.error "AD query failed"), false) :=
  claim2_promise_memoized (Except.error "AD query failed")
    (Except.ok ("CN=G", some "CORP"))

/-- C5, counterexample: the spec `S-1-abc` does not match the strict
pattern `S-1-` plus dash-separated digits, yet `resolveAllowedGroupDN`
sends it down the SID-to-binary path, because the branch selector is only
a prefix test. -/
theorem claim5_loose_sid_counterexample :
    strictSid "S-1-abc" = false ∧ groupQueryKind "S-1-abc" = GroupFilterKind.sid := by
  constructor
  · decide
  · rfl

/-- C5, amended: a group spec is sent down the SID-to-binary path exactly
when the name-or-SID portion produced by `parseAllowedGroup` (the whole
trimmed spec when it matches the strict SID pattern or has no
`domain\name` split, otherwise the part after the first backslash) starts
with the case-sensitive four-character prefix `S-1-`; the strict pattern
only decides whether domain splitting is skipped.  In particular the
lowercase spec `s-1-5-32` matches the strict pattern yet goes down the
name path (matched against account-name or common-name). -/
theorem claim5_sid_detection :
    (∀ spec : String,
      groupQueryKind spec = GroupFilterKind.sid ↔
        sidPrefixTest (parseAllowedGroupL spec.data).2 = true) ∧
    strictSid "s-1-5-32" = true ∧
    groupQueryKind "s-1-5-32" = GroupFilterKind.name := by
  refine ⟨fun spec => ?_, by decide, rfl⟩
  unfold groupQueryKind
  split_ifs with h <;> simp [h]

/-- C5 witness: the prefix characterization applied at the concrete spec
`S-1-5-32`. -/
theorem claim5_sid_detection_witness :
    groupQueryKind "S-1-5-32" = GroupFilterKind.sid :=
  (claim5_sid_detection.1 "S-1-5-32").mpr (by decide)

/-- C7: injection-safety of the filter-escaping function.  (1) The
characters `* ( )` NUL never occur in an escaped output; (2) every
backslash occurring in an escaped output begins one of the five
two-hex-digit escape codewords (no unescaped backslash); (3) two distinct
raw inputs never produce the same escaped output. -/
theorem claim7_escape_injective_safe :
    (∀ (s : String), ∀ c ∈ (escapeLdapFilter s).data, filterSpecial c = false) ∧
    (∀ (s : String) (p q : List Char),
      (escapeLdapFilter s).data = p ++ '\\' :: q →
        ∃ a b r, q = a :: b :: r ∧ isEscPair a b = true) ∧
    (∀ s t : String, escapeLdapFilter s = escapeLdapFilter t → s = t) := by
  refine ⟨fun s c hc => ?_, fun s p q h => ?_, fun s t h => ?_⟩
  · exact escape_no_raw_special s.data c hc
  · exact escape_backslash_escaped s.data p q h
  · have hdata : escapeLdapFilterL s.data = escapeLdapFilterL t.data :=
      congrArg String.data h
    have := escapeLdapFilterL_inj s.data t.data hdata
    cases s with
    | mk ds => cases t with
      | mk dt => exact congrArg String.mk this

/-- C7 witness: the theorem applied at concrete inputs (`a*`, a lone
backslash, and a pair of equal strings for the injectivity direction). -/
theorem claim7_escape_injective_safe_witness :
    filterSpecial 'a' = false ∧
    (∃ a b r, (['5', 'c'] : List Char) = a :: b :: r ∧ isEscPair a b = true) ∧
    ("ab" : String) = "ab" := by
  refine ⟨claim7_escape_injective_safe.1 "a*" 'a' (by decide),
    claim7_escape_injective_safe.2.1 "\\" [] ['5', 'c'] (by decide),
    claim7_escape_injective_safe.2.2 "ab" "ab" rfl⟩

/-- C3, counterexample: with two directory entries matching the same
account name and transitive group filter, `isUserInGroup` still returns
true — its query runs with `SizeLimit=1`, so the result set is truncated
to one entry and `res.Count -eq 1` cannot detect multiplicity. -/
theorem claim3_multiple_match_counterexample :
    (([⟨true, true, "jdoe", "jdoe@corp.local", "J Doe", ["CN=G"]⟩,
       ⟨true, true, "jdoe", "jdoe2@corp.local", "J Doe 2", ["CN=G"]⟩] :
        List DirEntry).filter (memberFilterMatches "jdoe" "CN=G")).length = 2 ∧
    isUserInGroup
      (Except.ok [⟨true, true, "jdoe", "jdoe@corp.local", "J Doe", ["CN=G"]⟩,
        ⟨true, true, "jdoe", "jdoe2@corp.local", "J Doe 2", ["CN=G"]⟩])
      none "jdoe" "CN=G" = Except.ok true := by
  exact ⟨rfl, rfl⟩

/-- C3, amended: `IsMember` returns true iff the stripped account name is
non-empty and *at least one* directory person matches the account-name
and transitive-membership filter (the `SizeLimit=1` truncation makes
multiplicity undetectable); a directory error propagates as a failure,
and the gate's membership stage turns any non-true outcome — false or
error — into a denial, never an allow. -/
theorem claim3_membership_fail_closed :
    (∀ (entries : List DirEntry) (dom : Option String) (userName groupDN : String),
      stripDomainPrefixS userName ≠ "" →
      (isUserInGroup (Except.ok entries) dom userName groupDN = Except.ok true ↔
        ∃ e ∈ entries,
          memberFilterMatches (stripDomainPrefixS userName) groupDN e = true)) ∧
    (∀ (err : String) (dom : Option String) (userName groupDN : String),
      stripDomainPrefixS userName ≠ "" →
      isUserInGroup (Except.error err) dom userName groupDN = Except.error err) ∧
    (∀ (allowed : String × Option String) (dir : Except String (List DirEntry))
      (dom : Option String) (idName label : String),
      isUserInGroup dir dom idName allowed.1 ≠ Except.ok true →
      authzMembership (Except.ok allowed) dir dom idName label =
        GateOutcome.denied (hardDeny 403 false)) := by
  refine ⟨fun entries dom userName groupDN h => ?_,
    fun err dom userName groupDN h => ?_,
    fun allowed dir dom idName label hne => ?_⟩
  · unfold isUserInGroup
    rw [if_neg h]
    simp only [Except.ok.injEq, beq_iff_eq, List.length_take]
    constructor
    · intro hlen
      have hpos :
          0 < (entries.filter
            (memberFilterMatches (stripDomainPrefixS userName) groupDN)).length := by
        omega
      obtain ⟨e, he⟩ := List.exists_mem_of_length_pos hpos
      have := List.mem_filter.mp he
      exact ⟨e, this.1, this.2⟩
    · rintro ⟨e, he, hpe⟩
      have hmem : e ∈ entries.filter
          (memberFilterMatches (stripDomainPrefixS userName) groupDN) :=
        List.mem_filter.mpr ⟨he, hpe⟩
      have hpos := List.length_pos.mpr (List.ne_nil_of_mem hmem)
      omega
  · unfold isUserInGroup
    rw [if_neg h]
  · cases hm : isUserInGroup dir dom idName allowed.1 with
    | error e => simp [authzMembership, hm]
    | ok b =>
      cases b with
      | false => simp [authzMembership, hm]
      | true => exact absurd hm hne

/-- C3 witness: the membership characterization, error propagation, and
fail-closed gate behaviour applied at concrete inputs. -/
theorem claim3_membership_fail_closed_witness :
    isUserInGroup
        (Except.ok [⟨true, true, "jdoe", "jdoe@corp.local", "J Doe", ["CN=G"]⟩])
        none "CORP\\jdoe" "CN=G" = Except.ok true ∧
    isUserInGroup (Except.error "AD down") none "CORP\\jdoe" "CN=G" =
      Except.error "AD down" ∧
    authzMembership (Except.ok ("CN=G", some "CORP")) (Except.error "AD down")
        none "jdoe" "CORP\\jdoe" = GateOutcome.denied (hardDeny 403 false) := by
  refine ⟨(claim3_membership_fail_closed.1
      [⟨true, true, "jdoe", "jdoe@corp.local", "J Doe", ["CN=G"]⟩]
      none "CORP\\jdoe" "CN=G" (by decide)).mpr
      ⟨⟨true, true, "jdoe", "jdoe@corp.local", "J Doe", ["CN=G"]⟩,
        by simp, by decide⟩,
    claim3_membership_fail_closed.2.1 "AD down" none "CORP\\jdoe" "CN=G" (by decide),
    claim3_membership_fail_closed.2.2 ("CN=G", some "CORP") (Except.error "AD down")
      none "jdoe" "CORP\\jdoe" (by
        have heval : isUserInGroup (Except.error "AD down") none "jdoe"
            ("CN=G", (some "CORP" : Option String)).1 = Except.error "AD down" := rfl
        rw [heval]
        intro hcontra
        exact Except.noConfusion hcontra)⟩

/-- C4, counterexample: the input `CORP\jdoe` contains a backslash yet is
*not* rejected — the validation regex class `[A-Za-z0-9@._\\-]` includes
the backslash, the prefix is stripped, and with a matching directory
person the call returns a normalized label, not null. -/
theorem claim4_backslash_counterexample :
    checkoutPrevalidate ("CORP\\jdoe" : String).data =
      CheckoutValidation.queryDirectory ("jdoe" : String).data ∧
    resolveAndValidateCheckoutUser
        (Except.ok [⟨true, true, "jdoe", "jdoe@corp.local", "J Doe", ["CN=G"]⟩])
        "CORP\\jdoe" "CN=G" (some "CORP") =
      (Except.ok (some "CORP\\jdoe"), 1) := by
  exact ⟨rfl, rfl⟩

/-- C4, amended: a non-empty trimmed input is rejected before any
directory call exactly when it is longer than 256 characters or contains
a character outside `[A-Za-z0-9@._\-]` *with the backslash included* in
the permitted set (the JS class `[A-Za-z0-9@._\\-]` escapes a literal
backslash), and a rejected input always yields null with zero directory
queries. -/
theorem claim4_syntax_check :
    (∀ input : String, trimL input.data ≠ [] →
      (checkoutPrevalidate input.data = CheckoutValidation.rejected ↔
        ¬((trimL input.data).length ≤ 256 ∧
          (trimL input.data).all checkoutCharOk = true))) ∧
    (∀ (dir : Except String (List DirEntry)) (input groupDN : String)
      (dom : Option String),
      checkoutPrevalidate input.data = CheckoutValidation.rejected →
      resolveAndValidateCheckoutUser dir input groupDN dom = (Except.ok none, 0)) := by
  constructor
  · intro input h
    unfold checkoutPrevalidate
    rw [if_neg h]
    split_ifs with h1 h2
    · simp only [iff_true_intro rfl, true_iff]
      intro hc
      omega
    · simp only [iff_true_intro rfl, true_iff]
      simp only [Bool.not_eq_true'] at h2
      intro hc
      rw [hc.2] at h2
      exact absurd h2 (by decide)
    · simp only [Bool.not_eq_true'] at h2
      constructor
      · intro hq
        exact absurd hq (by simp)
      · intro hc
        exact absurd ⟨by omega, by simpa using h2⟩ hc
  · intro dir input groupDN dom hrej
    unfold resolveAndValidateCheckoutUser
    rw [hrej]

/-- C4 witness: the amended syntax check applied at the concrete inputs
`j doe` (rejected: space outside the class) and the second part applied
to derive the null-and-no-query result. -/
theorem claim4_syntax_check_witness :
    checkoutPrevalidate ("j doe" : String).data = CheckoutValidation.rejected ∧
    resolveAndValidateCheckoutUser (Except.ok []) "j doe" "CN=G" none =
      (Except.ok none, 0) := by
  refine ⟨(claim4_syntax_check.1 "j doe" (by decide)).mpr (by decide),
    claim4_syntax_check.2 (Except.ok []) "j doe" "CN=G" none
      ((claim4_syntax_check.1 "j doe" (by decide)).mpr (by decide))⟩

/-- C6: `requireCsrf` lets safe methods (GET, HEAD, OPTIONS, after
upper-casing) pass unconditionally; for every other method it accepts
exactly when the custom header, the `XSRF-TOKEN` cookie, and the
session-stored token are all present (non-empty) and byte-equal, and any
absence or pairwise mismatch produces the 403 `hardDeny` response. -/
theorem claim6_csrf_double_submit (method : String)
    (header cookie sessionCsrf : Option String) :
    (¬(jsToUpper method = "GET" ∨ jsToUpper method = "HEAD" ∨
        jsToUpper method = "OPTIONS") →
      ((requireCsrf method header cookie sessionCsrf = MwStep.next ↔
        header.getD "" ≠ "" ∧ cookie.getD "" ≠ "" ∧ sessionCsrf.getD "" ≠ "" ∧
        header.getD "" = cookie.getD "" ∧ cookie.getD "" = sessionCsrf.getD "") ∧
      (requireCsrf method header cookie sessionCsrf ≠ MwStep.next →
        requireCsrf method header cookie sessionCsrf =
          MwStep.halt (hardDeny 403 false)))) ∧
    ((jsToUpper method = "GET" ∨ jsToUpper method = "HEAD" ∨
        jsToUpper method = "OPTIONS") →
      requireCsrf method header cookie sessionCsrf = MwStep.next) := by
  constructor
  · intro hns
    unfold requireCsrf
    rw [if_neg hns]
    split_ifs with hbad
    · constructor
      · refine iff_of_false (by simp) ?_
        rintro ⟨r1, r2, r3, r4, r5⟩
        rcases hbad with hb | hb | hb | hb | hb
        · exact r1 hb
        · exact r2 hb
        · exact r3 hb
        · exact hb r4
        · exact hb (r4.trans r5)
      · intro _
        rfl
    · push_neg at hbad
      constructor
      · exact iff_of_true rfl
          ⟨hbad.1, hbad.2.1, hbad.2.2.1, hbad.2.2.2.1,
            hbad.2.2.2.1.symm.trans hbad.2.2.2.2⟩
      · intro hne
        exact absurd rfl hne
  · intro hsafe
    unfold requireCsrf
    rw [if_pos hsafe]

/-- C6 witness: the theorem applied at a POST with matching tokens and at
a POST with a mismatching session token. -/
theorem claim6_csrf_double_submit_witness :
    requireCsrf "POST" (some "tok") (some "tok") (some "tok") = MwStep.next ∧
    requireCsrf "POST" (some "tok") (some "tok") (some "other") =
      MwStep.halt (hardDeny 403 false) := by
  refine ⟨((claim6_csrf_double_submit "POST" (some "tok") (some "tok")
      (some "tok")).1 (by decide)).1.mpr (by decide),
    ((claim6_csrf_double_submit "POST" (some "tok") (some "tok")
      (some "other")).1 (by decide)).2 (by decide)⟩

/-- C8: the session invariant.  Every session state the program can
produce (fresh, established by the gate's success path — a single
synchronous step that writes `auth`, `csrf`, `allowedGroupDN`,
`allowedGroupDomain` together — or destroyed) that has `auth` present
also has a non-empty CSRF token and a non-empty allowed-group DN. -/
theorem claim8_session_invariant (s : Session) (hs : SessionReachable s)
    (hauth : s.auth.isSome = true) :
    (∃ t, s.csrf = some t ∧ t ≠ "") ∧
    (∃ d, s.allowedGroupDN = some d ∧ d ≠ "") := by
  induction hs with
  | init => simp [emptySession] at hauth
  | destroy s' hs' ih => simp [emptySession] at hauth
  | establish s' hs' user rawDN dn dom hdn bytes hb ih =>
    constructor
    · refine ⟨randomToken bytes, rfl, ?_⟩
      unfold randomToken
      intro hmk
      have hdata : b64urlEncode bytes = [] := by
        simpa using congrArg String.data hmk
      refine b64urlEncode_ne_nil bytes ?_ hdata
      intro hnil
      rw [hnil] at hb
      simp at hb
    · refine ⟨dn, rfl, ?_⟩
      unfold finishResolveGroupDN at hdn
      split_ifs at hdn with hraw
      rw [Except.ok.injEq, Prod.mk.injEq] at hdn
      intro h0
      exact hraw (by rw [hdn.1, h0])

/-- C8 witness: the invariant applied to a session concretely established
from a resolved DN and 32 zero bytes of randomness. -/
theorem claim8_session_invariant_witness :
    (∃ t, (establishSession emptySession "CORP\\jdoe"
        "CN=IT-Staff,OU=Groups,DC=corp,DC=local" (some "CORP")
        (randomToken (List.replicate 32 0))).csrf = some t ∧ t ≠ "") ∧
    (∃ d, (establishSession emptySession "CORP\\jdoe"
        "CN=IT-Staff,OU=Groups,DC=corp,DC=local" (some "CORP")
        (randomToken (List.replicate 32 0))).allowedGroupDN = some d ∧ d ≠ "") :=
  claim8_session_invariant _
    (SessionReachable.establish emptySession SessionReachable.init "CORP\\jdoe"
      "CN=IT-Staff,OU=Groups,DC=corp,DC=local"
      "CN=IT-Staff,OU=Groups,DC=corp,DC=local" (some "CORP") rfl
      (List.replicate 32 0) (by simp)) rfl

/-- C9: any checkout input whose trimmed form is non-empty and fails the
identifier syntax check (a character outside the permitted class, such as
the space in `j doe`) makes the checkout route answer the fixed
non-diagnostic 400 (`Invalid checkout user`) with zero directory queries
issued, for every directory state and computer-check outcome. -/
theorem claim9_invalid_syntax_no_query (dir : Except String (List DirEntry))
    (computerNameOk computerKnown : Bool) (input groupDN : String)
    (dom : Option String) (hne : trimL input.data ≠ [])
    (hbad : ¬((trimL input.data).all checkoutCharOk = true)) :
    checkoutRoute dir computerNameOk computerKnown input groupDN dom =
      (RouteResult.http invalidCheckoutResp, 0) := by
  have hrej : checkoutPrevalidate input.data = CheckoutValidation.rejected := by
    unfold checkoutPrevalidate
    rw [if_neg hne]
    split_ifs with h1 h2
    · rfl
    · rfl
    · simp only [Bool.not_eq_true'] at h2
      exact absurd (by simpa using h2) hbad
  have hval : ∀ g d, resolveAndValidateCheckoutUser dir input g d =
      (Except.ok none, 0) := by
    intro g d
    unfold resolveAndValidateCheckoutUser
    rw [hrej]
  unfold checkoutRoute
  split_ifs with hz hc
  · rfl
  · rfl
  · rw [hval groupDN dom]

/-- C9 witness: the theorem applied to the concrete input `j doe`. -/
theorem claim9_invalid_syntax_no_query_witness :
    checkoutRoute (Except.ok []) true true "j doe" "CN=G" none =
      (RouteResult.http invalidCheckoutResp, 0) :=
  claim9_invalid_syntax_no_query (Except.ok []) true true "j doe" "CN=G" none
    (by decide) (by decide)

/-- C10, counterexample: a request *carrying* an empty Origin header —
present, and unparsable (`new URL('')` throws) — is *not* denied: the JS
falsiness test `if (!origin) return next()` passes it straight through to
the rest of the pipeline, contradicting the claim that every request with
an unparsable Origin is answered 403 before the gate runs.  (The `parse`
oracle maps the empty string to `none`, modelling the parse exception it
would raise were it ever reached.) -/
theorem claim10_empty_origin_counterexample :
    pipelineFromOrigin (fun _ => none) (some "") (some "localhost:9191")
        internalErrorResp = internalErrorResp ∧
    internalErrorResp ≠ hardDeny 403 false := by
  constructor
  · rfl
  · intro h
    exact absurd (congrArg HttpResponse.status h) (by decide)

/-- C10, amended: the same-origin middleware, which runs strictly before
the authorization gate, passes requests whose Origin header is absent
*or present but empty* (both falsy in the source's `!origin` test)
through to the rest of the pipeline; for a request with a non-empty
Origin that is unparsable, or that parses to a host different from (or
standing against a missing) Host header, it answers the 403 `hardDeny` —
status 403 and body `Access Denied` — independently of whatever the gate
would have produced. -/
theorem claim10_origin_check (parse : String → Option String)
    (origin host : Option String) (rest : HttpResponse) :
    (origin = none → pipelineFromOrigin parse origin host rest = rest) ∧
    (origin = some "" → pipelineFromOrigin parse origin host rest = rest) ∧
    (∀ o, origin = some o → o ≠ "" → parse o = none →
      pipelineFromOrigin parse origin host rest = hardDeny 403 false) ∧
    (∀ o oh, origin = some o → o ≠ "" → parse o = some oh →
      (host.getD "" = "" ∨ oh ≠ host.getD "") →
      pipelineFromOrigin parse origin host rest = hardDeny 403 false) ∧
    ((hardDeny 403 false).status = 403 ∧
      (hardDeny 403 false).body = "Access Denied") := by
  refine ⟨?_, ?_, ?_, ?_, rfl, rfl⟩
  · rintro rfl
    rfl
  · rintro rfl
    rfl
  · rintro o rfl ho hp
    simp only [pipelineFromOrigin, originCheck, Option.getD_some, if_neg ho, hp]
  · rintro o oh rfl ho hp hmm
    simp only [pipelineFromOrigin, originCheck, Option.getD_some, if_neg ho, hp]
    rw [if_pos hmm]

/-- C10 witness: a cross-origin request (non-empty Origin whose host
differs from Host) is denied by the origin middleware regardless of the
rest of the pipeline. -/
theorem claim10_origin_check_witness :
    pipelineFromOrigin (fun _ => some "evil.example:9191")
        (some "http://evil.example:9191") (some "localhost:9191")
        internalErrorResp = hardDeny 403 false :=
  (claim10_origin_check (fun _ => some "evil.example:9191")
      (some "http://evil.example:9191") (some "localhost:9191")
      internalErrorResp).2.2.2.1 "http://evil.example:9191" "evil.example:9191"
    rfl (by decide) rfl (by decide)

end DLT
